import Mathlib

/-!
# Verification of the ailog AI-attribution engine

Shallow embedding of the detection engine, the activity log, the
attribution flag protocol and the fallback commit-hook script of the
`AGISeek/ailog` VS Code extension, with theorems settling the frozen
claims about them.

The JavaScript regular expressions the analyzers are built from are
embedded as abstract syntax trees over a small executable matcher that
follows the ECMAScript search semantics the code relies on: leftmost
match, backtracking priority (greedy / lazy quantifiers, left-biased
alternation), multiline `^`/`$` anchors, and — crucially for the purity
claim — the `lastIndex` statefulness of `test()` on a `g`-flagged
regular expression object that is reused across calls.

Strings are modelled as Lean `String`s (JS `length` counts UTF-16 units,
Lean counts codepoints; all inputs of interest are ASCII, where the two
agree), and the character class `\s` by its ASCII part. File contents of
the activity log are modelled as lists of lines, each line either blank,
a well-formed serialized entry, or malformed (a line `JSON.parse`
throws on); the flag file as `Option String` (absent / its content).
Reason strings and result metadata that no claim mentions are omitted
from the embedded result records.
-/

namespace Ailog

/-! ## Regular-expression engine -/

/-- Regular expressions, as the source's literals use them: character
classes, sequencing, alternation (left-biased), greedy and lazy stars,
the multiline anchors `^`/`$` (`bol`/`eol`) and the string-start anchor
`^` of a regex without the `m` flag (`bos`). -/
inductive Reg where
  | eps : Reg
  | cls (f : Char → Bool) : Reg
  | seq (a b : Reg) : Reg
  | alt (a b : Reg) : Reg
  | star (lazy : Bool) (a : Reg) : Reg
  | bol : Reg
  | eol : Reg
  | bos : Reg

/-- All ways a regex can match a prefix of `s`, in ECMAScript
backtracking priority order. Each result is the pair of the character
preceding the rest (to evaluate line anchors further right) and the
rest of the input after the matched prefix. `prev` is the character
just before `s` in the whole subject (`none` at the very start).
A star iteration recurses only when it consumed input, which is
ECMAScript's own rule for repetition of an empty match. The `fuel`
argument only makes the recursion structural (so the kernel can
evaluate it); every nested call strictly decreases it, so any fuel of
at least the recursion depth — `searchFrom` below provides
`(r.size + 1) * (s.length + 2)`, a bound on that depth — gives the
fuel-free semantics. -/
def matchEnds : Nat → Reg → Option Char → List Char → List (Option Char × List Char)
  | 0, _, _, _ => []
  | fuel + 1, r, p, s =>
    match r with
    | .eps => [(p, s)]
    | .cls f =>
      match s with
      | [] => []
      | c :: rest => if f c then [(some c, rest)] else []
    | .seq a b =>
      (matchEnds fuel a p s).flatMap fun pr => matchEnds fuel b pr.1 pr.2
    | .alt a b => matchEnds fuel a p s ++ matchEnds fuel b p s
    | .star lz a =>
      let more := (matchEnds fuel a p s).flatMap fun pr =>
        if pr.2.length < s.length then matchEnds fuel (.star lz a) pr.1 pr.2 else []
      if lz then (p, s) :: more else more ++ [(p, s)]
    | .bol => if p = none ∨ p = some '\n' then [(p, s)] else []
    | .eol => if s = [] ∨ s.head? = some '\n' then [(p, s)] else []
    | .bos => if p = none then [(p, s)] else []

/-- Structural size of a regex (the derived `sizeOf` is not executable
because of the character-class function fields). -/
def Reg.size : Reg → Nat
  | .eps | .cls _ | .bol | .eol | .bos => 1
  | .seq a b | .alt a b => a.size + b.size + 1
  | .star _ a => a.size + 1

/-- Fuel that strictly dominates the recursion depth of `matchEnds`
on `r` over a string of length `n`. -/
def enoughFuel (r : Reg) (n : Nat) : Nat := (r.size + 1) * (n + 2)

/-- Scan for the leftmost match at or after position `pos` (ECMAScript
search). Returns the start and end indices of the first match found,
with the backtracking-preferred end. -/
def searchFrom (r : Reg) (prev : Option Char) (s : List Char) (pos : Nat) :
    Option (Nat × Nat) :=
  match matchEnds (enoughFuel r s.length) r prev s with
  | pr :: _ => some (pos, pos + (s.length - pr.2.length))
  | [] =>
    match s with
    | [] => none
    | c :: rest => searchFrom r (some c) rest (pos + 1)

/-- `re.test(s)` for a regex without the `g` flag (and for a freshly
created `g` regex, whose `lastIndex` is 0): does a match exist? -/
def reTest (r : Reg) (s : String) : Bool :=
  (searchFrom r none s.data 0).isSome

/-- The character before position `i` of `s` (`none` at the start). -/
def prevAt (s : List Char) (i : Nat) : Option Char :=
  if i = 0 then none else s.get? (i - 1)

/-- `re.test(s)` for a `g`-flagged regex object whose current
`lastIndex` is `li`: the search starts at `li`; on success `lastIndex`
becomes the end of the match, on failure it is reset to 0. -/
def testG (r : Reg) (s : List Char) (li : Nat) : Bool × Nat :=
  if li > s.length then (false, 0)
  else
    match searchFrom r (prevAt s li) (s.drop li) li with
    | some (_, e) => (true, e)
    | none => (false, 0)

/-! ### Character classes and constructors for the literals used -/

/-- The ASCII part of ECMAScript `\s`. -/
def isJsSpace (c : Char) : Bool :=
  c == ' ' || c == '\t' || c == '\n' || c == '\r' ||
  c.toNat == 11 || c.toNat == 12

/-- ECMAScript `\w`: `[A-Za-z0-9_]`. -/
def isWordChar (c : Char) : Bool :=
  (97 ≤ c.toNat && c.toNat ≤ 122) || (65 ≤ c.toNat && c.toNat ≤ 90) ||
  (48 ≤ c.toNat && c.toNat ≤ 57) || c == '_'

def rchar (c : Char) : Reg := .cls (fun x => x == c)

def rnot (c : Char) : Reg := .cls (fun x => !(x == c))

/-- A literal string. -/
def rlit (s : String) : Reg := (s.data.map rchar).foldr .seq .eps

/-- `[\s\S]`: any character at all. -/
def rany : Reg := .cls (fun _ => true)

/-- `.`: any character but a line terminator. -/
def rdot : Reg := .cls (fun c => !(c == '\n' || c == '\r'))

def rws : Reg := .cls isJsSpace

def rwc : Reg := .cls isWordChar

def rstar (r : Reg) : Reg := .star false r

def rstarLazy (r : Reg) : Reg := .star true r

def rplus (r : Reg) : Reg := .seq r (.star false r)

def ropt (r : Reg) : Reg := .alt r .eps

/-- Concatenation of a list of regexes. -/
def rcat (rs : List Reg) : Reg := rs.foldr .seq .eps

/-- JavaScript `String.prototype.trim` (ASCII whitespace). -/
def jsTrimList (l : List Char) : List Char :=
  ((l.dropWhile isJsSpace).reverse.dropWhile isJsSpace).reverse

def jsTrim (s : String) : String := ⟨jsTrimList s.data⟩

/-- `String.prototype.split` with a one-character separator (the only
form the code uses). Defined over the character list so the kernel can
evaluate it: `splitOnChar sep` of the empty list is `[[]]`, and a
trailing separator yields a trailing empty piece, as in JavaScript. -/
def splitOnChar (sep : Char) : List Char → List (List Char)
  | [] => [[]]
  | c :: rest =>
    match splitOnChar sep rest with
    | [] => [[c]]
    | h :: t => if c == sep then [] :: h :: t else (c :: h) :: t

/-- `text.split(sep)` as strings. -/
def jsSplit (sep : Char) (s : String) : List String :=
  (splitOnChar sep s.data).map fun l => ⟨l⟩

/-- ASCII `toLowerCase`. -/
def lowerChar (c : Char) : Char :=
  if 65 ≤ c.toNat && c.toNat ≤ 90 then Char.ofNat (c.toNat + 32) else c

def jsToLower (s : String) : String := ⟨s.data.map lowerChar⟩

/-- `String.prototype.substring(n)` on ASCII text. -/
def jsDrop (n : Nat) (s : String) : String := ⟨s.data.drop n⟩

/-! ## ChunkAnalyzer (src/services/detection/chunkAnalyzer.ts) -/

namespace ChunkAnalyzer

structure ChunkResult where
  score : Int
  size : Nat
  category : String
  deriving Repr, DecidableEq

/-- `ChunkAnalyzer.analyzeChunkSize`: size tiers over the text length. -/
def analyzeChunkSize (text : String) : ChunkResult :=
  let size := text.length
  if size > 500 then ⟨30, size, "Large code block"⟩
  else if size > 200 then ⟨20, size, "Medium code block"⟩
  else if size > 100 then ⟨10, size, "Small code block"⟩
  else ⟨0, size, "Tiny code block"⟩

end ChunkAnalyzer

/-! ## SyntaxAnalyzer (src/services/detection/syntaxAnalyzer.ts)

Each definition embeds one regex literal of `languagePatterns`; all of
them carry the `m` flag, so their anchors are the line anchors
`bol`/`eol`. -/

namespace SyntaxAnalyzer

/-- `[^)]*` -/
def rNoParen : Reg := rstar (rnot ')')

def jsFunction : Reg := rcat [.bol, rlit "function", rplus rws, rplus rwc,
  rstar rws, rchar '(', rNoParen, rchar ')', rstar rws, rchar '\x7b',
  rstar rany, rchar '\x7d', .eol]

def jsClass : Reg := rcat [.bol, rlit "class", rplus rws, rplus rwc,
  rstar rws, rchar '\x7b', rstar rany, rchar '\x7d', .eol]

def jsArrow : Reg := rcat [.bol, rlit "const", rplus rws, rplus rwc,
  rstar rws, rchar '=', rstar rws, rchar '(', rNoParen, rchar ')',
  rstar rws, rlit "=>", rstar rws, rchar '\x7b', rstar rany, rchar '\x7d', .eol]

def jsExport : Reg := rcat [.bol, rlit "export", rplus rws,
  ropt (rcat [rlit "default", rplus rws]), rplus (rnot ';'), ropt (rchar ';'), .eol]

def tsFunction : Reg := rcat [.bol, rlit "function", rplus rws, rplus rwc,
  rstar rws, rchar '(', rNoParen, rchar ')', rstar rws, rchar ':', rstar rws,
  rplus rwc, rstar rws, rchar '\x7b', rstar rany, rchar '\x7d', .eol]

def tsInterface : Reg := rcat [.bol, rlit "interface", rplus rws, rplus rwc,
  rstar rws, rchar '\x7b', rstar rany, rchar '\x7d', .eol]

def tsType : Reg := rcat [.bol, rlit "type", rplus rws, rplus rwc,
  rstar rws, rchar '=', rstar rany, rchar ';', .eol]

def tsClass : Reg := rcat [.bol, rlit "class", rplus rws, rplus rwc,
  rstar rws, rchar '\x7b', rstar rany, rchar '\x7d', .eol]

def pyDef : Reg := rcat [.bol, rlit "def", rplus rws, rplus rwc, rstar rws,
  rchar '(', rNoParen, rchar ')', rstar rws, rchar ':', rstar rws, rstar rany, .eol]

def pyClass : Reg := rcat [.bol, rlit "class", rplus rws, rplus rwc, rstar rws,
  rchar '(', rNoParen, rchar ')', rstar rws, rchar ':', rstar rws, rstar rany, .eol]

/-- `[\w\s,]` -/
def rWordSpaceComma : Reg := .cls fun c => isWordChar c || isJsSpace c || c == ','

/-- `[\w.]` -/
def rWordDot : Reg := .cls fun c => isWordChar c || c == '.'

def pyImport : Reg := rcat [.bol, rlit "import", rplus rws, rplus rWordSpaceComma, .eol]

def pyFromImport : Reg := rcat [.bol, rlit "from", rplus rws, rplus rWordDot,
  rplus rws, rlit "import", rplus rws, rplus rWordSpaceComma, .eol]

/-- `this.languagePatterns[languageId] || []`. -/
def languagePatterns (languageId : String) : List Reg :=
  if languageId = "javascript" then [jsFunction, jsClass, jsArrow, jsExport]
  else if languageId = "typescript" then [tsFunction, tsInterface, tsType, tsClass]
  else if languageId = "python" then [pyDef, pyClass, pyImport, pyFromImport]
  else []

/-- `SyntaxAnalyzer.analyzeSyntacticCompleteness`. -/
def analyzeSyntacticCompleteness (text : String) (languageId : String) : Int :=
  let patterns := languagePatterns languageId
  let matchCount := (patterns.filter (fun p => reTest p text)).length
  if matchCount > 0 then 25 else 0

/-- `SyntaxAnalyzer.getLanguageFromExtension`: extension of the path
(the part after the last dot, lower-cased) looked up in the map. -/
def getLanguageFromExtension (filePath : String) : String :=
  let ext := jsToLower ((jsSplit '.' filePath).getLastD "")
  if ext = "js" then "javascript"
  else if ext = "jsx" then "javascript"
  else if ext = "ts" then "typescript"
  else if ext = "tsx" then "typescript"
  else if ext = "py" then "python"
  else if ext = "java" then "java"
  else if ext = "c" then "c"
  else if ext = "cpp" then "cpp"
  else if ext = "h" then "c"
  else if ext = "hpp" then "cpp"
  else if ext = "cs" then "csharp"
  else if ext = "go" then "go"
  else if ext = "rs" then "rust"
  else if ext = "php" then "php"
  else if ext = "rb" then "ruby"
  else if ext = "swift" then "swift"
  else if ext = "kt" then "kotlin"
  else if ext = "scala" then "scala"
  else "plaintext"

end SyntaxAnalyzer

/-! ## BoilerplateAnalyzer (src/services/detection/boilerplateAnalyzer.ts) -/

namespace BoilerplateAnalyzer

def reactComponent : Reg := rcat [rlit "import", rplus rws, rlit "React",
  rstarLazy rany, rlit "export", rplus rws, rlit "default", rplus rws, rplus rwc]

def apiRequestFunction : Reg := rcat [rlit "async", rplus rws, rlit "function",
  rplus rws, rplus rwc, rstarLazy rany, rlit "try", rstar rws, rchar '\x7b',
  rstarLazy rany, rlit "catch", rstar rws, rchar '(', SyntaxAnalyzer.rNoParen,
  rchar ')', rstar rws, rchar '\x7b', rstarLazy rany, rchar '\x7d']

def dataStructureClass : Reg := rcat [rlit "class", rplus rws, rplus rwc,
  rstar rws, rchar '\x7b', rstarLazy rany, rlit "constructor", rstar rws,
  rchar '(', SyntaxAnalyzer.rNoParen, rchar ')', rstar rws, rchar '\x7b',
  rstarLazy rany, rchar '\x7d']

def expressRoute : Reg := rcat [rlit "app.",
  .alt (rlit "get") (.alt (rlit "post") (.alt (rlit "put") (rlit "delete"))),
  rstar rws, rchar '(', SyntaxAnalyzer.rNoParen, rchar ')', rstar rws, rchar ',',
  rstar rws, rchar '(', SyntaxAnalyzer.rNoParen, rchar ')', rstar rws,
  rlit "=>", rstar rws, rchar '\x7b', rstarLazy rany, rchar '\x7d']

def testCase : Reg := rcat [rlit "describe", rstar rws, rchar '(',
  SyntaxAnalyzer.rNoParen, rchar ')', rstar rws, rchar ',', rstar rws,
  rchar '(', rstar rws, rchar ')', rstar rws, rlit "=>", rstar rws,
  rchar '\x7b', rstarLazy rany, rlit "it", rstar rws, rchar '(',
  SyntaxAnalyzer.rNoParen, rchar ')', rstar rws, rchar ',',
  rstarLazy rany, rchar '\x7d']

/-- `this.boilerplatePatterns`, name and pattern. -/
def boilerplatePatterns : List (String × Reg) :=
  [("React Component", reactComponent),
   ("API Request Function", apiRequestFunction),
   ("Data Structure Class", dataStructureClass),
   ("Express Route", expressRoute),
   ("Test Case", testCase)]

structure BoilerplateResult where
  score : Int
  matchNames : List String
  deriving Repr, DecidableEq

/-- `BoilerplateAnalyzer.analyzeBoilerplate` (the source calls the
second field `matches`, a reserved word here). -/
def analyzeBoilerplate (text : String) : BoilerplateResult :=
  let found := (boilerplatePatterns.filter (fun np => reTest np.2 text)).map (·.1)
  ⟨if found.length > 0 then 20 else 0, found⟩

end BoilerplateAnalyzer

/-! ## CommentAnalyzer (src/services/detection/commentAnalyzer.ts) -/

namespace CommentAnalyzer

/-- The JSDoc block-comment regex literal. -/
def jsdocPattern : Reg := rcat [rlit "/**", rstarLazy rany, rlit "*/"]

/-- The regex of `^` (no `m` flag) followed by `[A-Z]`, applied to a
comment's content. -/
def capitalStart : Reg := .seq .bos (.cls fun c => 65 ≤ c.toNat && c.toNat ≤ 90)

/-- A line whose trimmed form starts with two slashes. -/
def isCommentLine (line : String) : Bool :=
  match (jsTrim line).data with
  | '/' :: '/' :: _ => true
  | _ => false

/-- The content of an inline comment line: trimmed line minus the two
slashes, trimmed again (`line.trim().substring(2).trim()`). -/
def commentContent (line : String) : String := jsTrim (jsDrop 2 (jsTrim line))

/-- The quality test on one comment line:
`comment.length > 10 && /^[A-Z]/.test(comment)`. -/
def isQualityComment (line : String) : Bool :=
  let comment := commentContent line
  comment.length > 10 && reTest capitalStart comment

structure CommentQuality where
  score : Int
  hasJSDoc : Bool
  hasQualityComments : Bool
  deriving Repr, DecidableEq

/-- `CommentAnalyzer.analyzeCommentQuality`: 15 points for a JSDoc
block match, 10 more when some `//` line passes the quality test. -/
def analyzeCommentQuality (text : String) : CommentQuality :=
  let hasJSDoc := reTest jsdocPattern text
  let lines := jsSplit '\n' text
  let commentLines := lines.filter isCommentLine
  let qualityComments := commentLines.filter isQualityComment
  let hasQualityComments := qualityComments.length > 0
  ⟨(if hasJSDoc then 15 else 0) + (if hasQualityComments then 10 else 0),
   hasJSDoc, hasQualityComments⟩

end CommentAnalyzer

/-! ## PatternAnalyzer (src/services/detection/patternAnalyzer.ts)

The eight `aiPatterns` regexes are created once, when the analyzer
object is built, and all carry the `g` flag; `analyzePatterns` calls
`test()` on those shared objects, so each object's `lastIndex`
survives from one call to the next. The analyzer's mutable state is
therefore the list of the eight `lastIndex` values. -/

namespace PatternAnalyzer

def multiLineComments : Reg := rcat [rlit "/**", rstarLazy rany, rlit "*/"]

def singleLineComments : Reg := rcat [rlit "//", rstar rdot, .eol]

def functionDefinitions : Reg := rcat [rlit "function", rplus rws, rplus rwc,
  rstar rws, rchar '(']

def constantDefinitions : Reg := rcat [rlit "const", rplus rws, rplus rwc,
  rstar rws, rchar '=']

def importStatements : Reg := rcat [rlit "import", rplus rws, rstar rdot,
  rlit "from"]

def interfaceDefinitions : Reg := rcat [rlit "interface", rplus rws,
  rplus rwc, rstar rws, rchar '\x7b']

def typeDefinitions : Reg := rcat [rlit "type", rplus rws, rplus rwc,
  rstar rws, rchar '=']

def exportStatements : Reg := rcat [rlit "export", rplus rws,
  ropt (rcat [rlit "default", rplus rws])]

/-- `this.aiPatterns`. -/
def aiPatterns : List Reg :=
  [multiLineComments, singleLineComments, functionDefinitions,
   constantDefinitions, importStatements, interfaceDefinitions,
   typeDefinitions, exportStatements]

/-- The `lastIndex` values of freshly constructed regex objects. -/
def freshState : List Nat := [0, 0, 0, 0, 0, 0, 0, 0]

/-- Run `test()` on each pattern against `s`, threading each pattern's
`lastIndex`; returns the number of patterns that reported a match and
the new `lastIndex` values. -/
def runTests : List Reg → List Nat → List Char → Nat × List Nat
  | [], _, _ => (0, [])
  | r :: rs, st, s =>
    let t := testG r s (st.headD 0)
    let rest := runTests rs st.tail s
    (rest.1 + (if t.1 then 1 else 0), t.2 :: rest.2)

/-- `PatternAnalyzer.analyzePatterns`, with the shared regex objects'
`lastIndex` state passed in and returned. -/
def analyzePatterns (st : List Nat) (text : String) : Int × List Nat :=
  let r := runTests aiPatterns st text.data
  let matchCount := r.1
  ((if matchCount ≥ 4 then 25 else if matchCount ≥ 3 then 20
    else if matchCount ≥ 2 then 15 else 0), r.2)

end PatternAnalyzer

/-! ## TimeProximityAnalyzer (src/services/detection/timeProximityAnalyzer.ts)

The analyzer reads a newline-delimited JSON log file. The file is
modelled as a list of lines, each line blank (only whitespace), a
well-formed serialized `ActivityLogEntry`, or malformed (a line
`JSON.parse` throws on). Timestamps (`Date.now()` milliseconds) are
integers. -/

structure ActivityLogEntry where
  file : String
  timestamp : Int
  command : String
  deriving Repr, DecidableEq

/-- One line of the activity log file. -/
inductive LogLine where
  | valid (e : ActivityLogEntry) : LogLine
  | blank : LogLine
  | malformed : LogLine
  deriving Repr, DecidableEq

namespace TimeProximityAnalyzer

/-- 24 hours, in milliseconds. -/
def maxAge : Int := 24 * 60 * 60 * 1000

/-- 5 seconds, in milliseconds. -/
def proximityWindow : Int := 5000

/-- `JSON.parse` on one non-blank line: a well-formed line yields its
entry, a malformed one throws (`none`). -/
def parseLine : LogLine → Option ActivityLogEntry
  | .valid e => some e
  | .blank => none
  | .malformed => none

def isBlank : LogLine → Bool
  | .blank => true
  | _ => false

/-- The `.map(line => JSON.parse(line))` over the non-blank lines:
parses each line in order; the first line that throws propagates the
exception (`none`). -/
def parseAll : List LogLine → Option (List ActivityLogEntry)
  | [] => some []
  | l :: rest =>
    match parseLine l with
    | some e =>
      match parseAll rest with
      | some es => some (e :: es)
      | none => none
    | none => none

/-- `TimeProximityAnalyzer.loadActivityLog`: split into lines, drop
blank lines, `JSON.parse` each. The whole `map` runs inside one
`try`/`catch`, so the first line that throws aborts the read and the
`catch` returns the empty list. -/
def loadActivityLog (file : List LogLine) : List ActivityLogEntry :=
  let nonBlank := file.filter (fun l => !isBlank l)
  match parseAll nonBlank with
  | some entries => entries
  | none => []

/-- `TimeProximityAnalyzer.saveActivityLog`: serialize every entry,
one line each, and rewrite the file. -/
def saveActivityLog (activities : List ActivityLogEntry) : List LogLine :=
  activities.map LogLine.valid

/-- `Array.prototype.slice(-100)`: the last 100 elements. -/
def sliceLast100 (l : List ActivityLogEntry) : List ActivityLogEntry :=
  l.drop (l.length - 100)

/-- `TimeProximityAnalyzer.recordActivity`: load, append the new
entry, keep the most recent 100 records, save. -/
def recordActivity (file : List LogLine) (fileName command : String)
    (now : Int) : List LogLine :=
  let activities := loadActivityLog file
  let newActivity : ActivityLogEntry := ⟨fileName, now, command⟩
  let recentActivities := sliceLast100 (activities ++ [newActivity])
  saveActivityLog recentActivities

structure TimeProximityResult where
  score : Int
  matchedActivity : Option ActivityLogEntry
  deriving Repr, DecidableEq

/-- The predicate of the `activities.find` call: same file, and the
entry is younger than the 5-second window. -/
def isRecentFor (filePath : String) (now : Int) (a : ActivityLogEntry) : Bool :=
  a.file == filePath && now - a.timestamp < proximityWindow

/-- `TimeProximityAnalyzer.analyzeTimeProximity`: the first entry, in
file order, for the same file and younger than the window scores
50/40/30 by age; no such entry scores 0. -/
def analyzeTimeProximity (filePath : String) (file : List LogLine)
    (now : Int) : TimeProximityResult :=
  let activities := loadActivityLog file
  match activities.find? (isRecentFor filePath now) with
  | some recentActivity =>
    let timeDelta := now - recentActivity.timestamp
    if timeDelta < 1000 then ⟨50, some recentActivity⟩
    else if timeDelta < 3000 then ⟨40, some recentActivity⟩
    else ⟨30, some recentActivity⟩
  | none => ⟨0, none⟩

end TimeProximityAnalyzer

/-! ## Detection results

The source's `AIDetectionResult` also carries the reasons list and a
metadata record; no claim concerns those, so the embedded result keeps
the classification and the confidence. -/

structure AIDetectionResult where
  isAiGenerated : Bool
  confidence : Int
  deriving Repr, DecidableEq

/-! ## GitAnalysisService (src/services/git/gitAnalysisService.ts)

`detectAIInText` runs the six analyzers on the added text of one
staged file and classifies at the hard-coded threshold 70. The service
object's `PatternAnalyzer` instance is shared across calls, so the
pattern analyzer's `lastIndex` state is threaded through. -/

namespace GitAnalysisService

/-- The `totalScore` accumulated by `detectAIInText` over the six
analyzers, together with the pattern analyzer's new state. -/
def detectScoreSum (ps : List Nat) (text filePath : String)
    (log : List LogLine) (now : Int) : Int × List Nat :=
  let chunkScore := (ChunkAnalyzer.analyzeChunkSize text).score
  let languageType := SyntaxAnalyzer.getLanguageFromExtension filePath
  let syntaxScore := SyntaxAnalyzer.analyzeSyntacticCompleteness text languageType
  let boilerplateScore := (BoilerplateAnalyzer.analyzeBoilerplate text).score
  let commentScore := (CommentAnalyzer.analyzeCommentQuality text).score
  let timeScore := (TimeProximityAnalyzer.analyzeTimeProximity filePath log now).score
  let pat := PatternAnalyzer.analyzePatterns ps text
  (chunkScore + syntaxScore + boilerplateScore + commentScore + timeScore + pat.1,
   pat.2)

/-- `GitAnalysisService.detectAIInText`: clamp the summed sub-scores
to 100 and classify at `confidence >= 70`. -/
def detectAIInText (ps : List Nat) (text filePath : String)
    (log : List LogLine) (now : Int) : AIDetectionResult × List Nat :=
  let r := detectScoreSum ps text filePath log now
  let confidence := min r.1 100
  (⟨decide (confidence ≥ 70), confidence⟩, r.2)

end GitAnalysisService

/-! ## AIDetectionService (src/services/detection/aiDetectionService.ts)

The editor-side engine. `detectAI` walks the content changes of a
document-change event, skips changes shorter than the chunk-size
threshold, and sums the scores of the analyzed ones; time-proximity
and pattern-matching are toggled by the configuration. -/

namespace AIDetectionService

structure DetectionConfig where
  confidenceThreshold : Int
  chunkSizeThreshold : Int
  timeProximityWindow : Int
  enableTimeProximity : Bool
  enablePatternMatching : Bool
  deriving Repr, DecidableEq

/-- `AIDetectionService.defaultConfig`. -/
def defaultConfig : DetectionConfig :=
  ⟨70, 100, 5000, true, true⟩

/-- `AIDetectionService.analyzeTextChange`: the score of one analyzed
text change (the same six analyzers, the last two behind their
toggles), with the pattern analyzer's state threaded. -/
def analyzeTextChange (config : DetectionConfig) (ps : List Nat)
    (text filePath : String) (log : List LogLine) (now : Int) : Int × List Nat :=
  let chunkScore := (ChunkAnalyzer.analyzeChunkSize text).score
  let languageType := SyntaxAnalyzer.getLanguageFromExtension filePath
  let syntaxScore := SyntaxAnalyzer.analyzeSyntacticCompleteness text languageType
  let boilerplateScore := (BoilerplateAnalyzer.analyzeBoilerplate text).score
  let commentScore := (CommentAnalyzer.analyzeCommentQuality text).score
  let timeScore :=
    if config.enableTimeProximity then
      (TimeProximityAnalyzer.analyzeTimeProximity filePath log now).score
    else 0
  let pat :=
    if config.enablePatternMatching then PatternAnalyzer.analyzePatterns ps text
    else (0, ps)
  (chunkScore + syntaxScore + boilerplateScore + commentScore + timeScore + pat.1,
   pat.2)

/-- The `totalScore` loop of `detectAI` over `event.contentChanges`:
a change shorter than the chunk-size threshold is skipped entirely. -/
def sumChanges (config : DetectionConfig) (filePath : String)
    (log : List LogLine) (now : Int) : List String → List Nat → Int × List Nat
  | [], ps => (0, ps)
  | text :: rest, ps =>
    if (text.length : Int) < config.chunkSizeThreshold then
      sumChanges config filePath log now rest ps
    else
      let r := analyzeTextChange config ps text filePath log now
      let rr := sumChanges config filePath log now rest r.2
      (r.1 + rr.1, rr.2)

/-- `AIDetectionService.detectAI`: sum over the event's content
changes, clamp to 100, classify at the configured threshold. -/
def detectAI (config : DetectionConfig) (ps : List Nat)
    (changes : List String) (fsPath : String) (log : List LogLine)
    (now : Int) : AIDetectionResult × List Nat :=
  let r := sumChanges config fsPath log now changes ps
  let confidence := min r.1 100
  (⟨decide (confidence ≥ config.confidenceThreshold), confidence⟩, r.2)

end AIDetectionService

/-! ## The standalone fallback script (src/lib/commitHookScript.js)

The pre-commit fallback used when the editor CLI is unavailable. Its
detection functions are plain module functions; every regex literal in
them is re-created per call, so they are stateless even where the
editor-side `PatternAnalyzer` is not. -/

namespace CommitHookScript

/-- `hasCompleteStructures`' patterns. None of these carries the `m`
flag and none is anchored. -/
def hookJsFunction : Reg := rcat [rlit "function", rplus rws, rplus rwc,
  rstar rws, rchar '(', SyntaxAnalyzer.rNoParen, rchar ')', rstar rws,
  rchar '\x7b', rstar rany, rchar '\x7d']

def hookJsClass : Reg := rcat [rlit "class", rplus rws, rplus rwc,
  rstar rws, rchar '\x7b', rstar rany, rchar '\x7d']

def hookJsArrow : Reg := rcat [rlit "const", rplus rws, rplus rwc,
  rstar rws, rchar '=', rstar rws, rchar '(', SyntaxAnalyzer.rNoParen,
  rchar ')', rstar rws, rlit "=>", rstar rws, rchar '\x7b', rstar rany, rchar '\x7d']

def hookTsFunction : Reg := rcat [rlit "function", rplus rws, rplus rwc,
  rstar rws, rchar '(', SyntaxAnalyzer.rNoParen, rchar ')', rstar rws,
  rchar ':', rstar rws, rplus rwc, rstar rws, rchar '\x7b', rstar rany, rchar '\x7d']

def hookTsInterface : Reg := rcat [rlit "interface", rplus rws, rplus rwc,
  rstar rws, rchar '\x7b', rstar rany, rchar '\x7d']

def hookTsType : Reg := rcat [rlit "type", rplus rws, rplus rwc,
  rstar rws, rchar '=', rstar rany, rchar ';']

def hookPyDef : Reg := rcat [rlit "def", rplus rws, rplus rwc, rstar rws,
  rchar '(', SyntaxAnalyzer.rNoParen, rchar ')', rstar rws, rchar ':',
  rstar rws, rstar rany]

def hookPyClass : Reg := rcat [rlit "class", rplus rws, rplus rwc, rstar rws,
  rchar '(', SyntaxAnalyzer.rNoParen, rchar ')', rstar rws, rchar ':',
  rstar rws, rstar rany]

/-- The `patterns` table of `hasCompleteStructures` (three JavaScript,
three TypeScript, two Python patterns; `[]` for any other tag). -/
def hookLanguagePatterns (language : String) : List Reg :=
  if language = "javascript" then [hookJsFunction, hookJsClass, hookJsArrow]
  else if language = "typescript" then [hookTsFunction, hookTsInterface, hookTsType]
  else if language = "python" then [hookPyDef, hookPyClass]
  else []

/-- `hasCompleteStructures`. -/
def hasCompleteStructures (text language : String) : Bool :=
  (hookLanguagePatterns language).any (fun p => reTest p text)

/-- `hasBoilerplatePatterns`' three patterns (React component, wrapped
async function, constructor-bearing class). -/
def hookBoilerplatePatterns : List Reg :=
  [BoilerplateAnalyzer.reactComponent,
   BoilerplateAnalyzer.apiRequestFunction,
   BoilerplateAnalyzer.dataStructureClass]

/-- `hasBoilerplatePatterns`. -/
def hasBoilerplatePatterns (text : String) : Bool :=
  hookBoilerplatePatterns.any (fun p => reTest p text)

/-- `hasHighQualityComments`: only the JSDoc block pattern. -/
def hasHighQualityComments (text : String) : Bool :=
  reTest CommentAnalyzer.jsdocPattern text

/-- `checkTimeProximity`: any entry for the file younger than 5
minutes scores a flat 40; a load failure (modelled through
`loadActivityLog`, whose catch yields the empty list) scores 0. -/
def checkTimeProximity (filePath : String) (log : List LogLine)
    (now : Int) : Int :=
  let activities := TimeProximityAnalyzer.loadActivityLog log
  match activities.find? (fun a => a.file == filePath && now - a.timestamp < 300000) with
  | some _ => 40
  | none => 0

/-- `checkAIPatterns`' seven patterns — the editor-side list minus the
single-line-comment pattern. The literals are created afresh on every
call, so each `test` starts at `lastIndex` 0. -/
def hookAiPatterns : List Reg :=
  [PatternAnalyzer.multiLineComments,
   PatternAnalyzer.functionDefinitions,
   PatternAnalyzer.constantDefinitions,
   PatternAnalyzer.importStatements,
   PatternAnalyzer.interfaceDefinitions,
   PatternAnalyzer.typeDefinitions,
   PatternAnalyzer.exportStatements]

/-- `checkAIPatterns`. -/
def checkAIPatterns (text : String) : Int :=
  let matchCount := (hookAiPatterns.filter (fun p => reTest p text)).length
  if matchCount ≥ 4 then 25 else if matchCount ≥ 3 then 20
  else if matchCount ≥ 2 then 15 else 0

/-- `getLanguageFromPath`: `path.extname` (last-dot suffix of the
name, empty when the name has no dot or only a leading one),
lower-cased, looked up in the script's smaller map. -/
def extname (p : String) : String :=
  match jsSplit '.' p with
  | [] => ""
  | [_] => ""
  | first :: rest =>
    if first = "" && rest.length = 1 then ""
    else "." ++ rest.getLastD ""

def getLanguageFromPath (filePath : String) : String :=
  let ext := jsToLower (extname filePath)
  if ext = ".js" then "javascript"
  else if ext = ".jsx" then "javascript"
  else if ext = ".ts" then "typescript"
  else if ext = ".tsx" then "typescript"
  else if ext = ".py" then "python"
  else if ext = ".java" then "java"
  else if ext = ".c" then "c"
  else if ext = ".cpp" then "cpp"
  else "plaintext"

/-- The `score` accumulated by the script's `detectAIInText`. -/
def hookScoreSum (text filePath : String) (log : List LogLine) (now : Int) : Int :=
  let chunkScore : Int :=
    if text.length > 500 then 30
    else if text.length > 200 then 20
    else if text.length > 100 then 10 else 0
  let syntaxScore : Int :=
    if hasCompleteStructures text (getLanguageFromPath filePath) then 25 else 0
  let boilerplateScore : Int := if hasBoilerplatePatterns text then 20 else 0
  let commentScore : Int := if hasHighQualityComments text then 15 else 0
  let timeScore := checkTimeProximity filePath log now
  let patternScore := checkAIPatterns text
  chunkScore + syntaxScore + boilerplateScore + commentScore + timeScore + patternScore

/-- The script's `detectAIInText`: same clamp to 100 and threshold 70
as the editor-side service. -/
def detectAIInText (text filePath : String) (log : List LogLine)
    (now : Int) : AIDetectionResult :=
  let confidence := min (hookScoreSum text filePath log now) 100
  ⟨decide (confidence ≥ 70), confidence⟩

end CommitHookScript

/-! ## The AttributionFlag file

`.git/AI_ATTRIBUTION_REQUESTED`: its presence is the signal, its
content an ISO timestamp. The file is `Option String` — `none` absent,
`some content` present. The filesystem primitives the code uses:
`fs.existsSync`, `fs.writeFileSync` (creates or overwrites), and
`fs.unlinkSync`, which throws when the file is absent. -/

namespace AttributionFlag

/-- A flag-file state: absent or present with a content. -/
abbrev FlagFile := Option String

def existsSync (st : FlagFile) : Bool := st.isSome

/-- `fs.writeFileSync(flagFile, timestamp)`. -/
def writeFileSync (content : String) (_ : FlagFile) : FlagFile := some content

/-- `fs.unlinkSync(flagPath)`: deletes, or throws on an absent file. -/
def unlinkSync : FlagFile → Except String FlagFile
  | some _ => .ok none
  | none => .error "ENOENT"

/-- `InteractiveCommitCommand.setAIAttributionFlag` (and the `y`
branch of the hook script's `main`): write the current timestamp. -/
def setAIAttributionFlag (timestamp : String) (st : FlagFile) : FlagFile :=
  writeFileSync timestamp st

/-- `GitCommitService.checkAIAttributionFlag`: a bare existence
check. -/
def checkAIAttributionFlag (st : FlagFile) : Bool := existsSync st

/-- `GitCommitService.cleanupAIAttributionFlag`: unlink only behind an
existence check, the whole body in `try`/`catch`. Returns the new
state and whether an exception was caught. -/
def cleanupAIAttributionFlag (st : FlagFile) : FlagFile × Bool :=
  if existsSync st then
    match unlinkSync st with
    | .ok st' => (st', false)
    | .error _ => (st, true)
  else (st, false)

end AttributionFlag

/-! ## Concrete inputs and predicates used by the theorems -/

/-- Inputs for the C2 witness: a 39-character text with three lexical
pattern kinds, a log entry 500 ms old (proximity 50, total 70); the
same text padded past the 100-character chunk threshold, with an entry
2 s old (chunk 10 + proximity 40 + patterns 20 = 70). -/
def c2Text : String := "const a = 1 function f( import x from m"

def c2TextPadded : String := c2Text ++ "\n" ++ String.mk (List.replicate 70 'a')

def c2Log : List LogLine := [LogLine.valid ⟨"f.txt", 9500, "cmd"⟩]

def c2LogB : List LogLine := [LogLine.valid ⟨"f.txt", 8000, "cmd"⟩]

/-- A text/path pair with no structural tokens for the editor-side
analyzers: none of the eight lexical patterns, none of the boilerplate
patterns, none of the syntax patterns of the path's language, and no
comments (neither a JSDoc block nor any `//` line). -/
def tokenFree (text filePath : String) : Bool :=
  PatternAnalyzer.aiPatterns.all (fun r => !reTest r text) &&
  BoilerplateAnalyzer.boilerplatePatterns.all (fun np => !reTest np.2 text) &&
  (SyntaxAnalyzer.languagePatterns
    (SyntaxAnalyzer.getLanguageFromExtension filePath)).all (fun r => !reTest r text) &&
  !reTest CommentAnalyzer.jsdocPattern text &&
  (jsSplit '\n' text).all (fun l => !CommentAnalyzer.isCommentLine l)

/-- The same for the fallback script's (smaller, unanchored) pattern
sets. -/
def hookTokenFree (text filePath : String) : Bool :=
  (CommitHookScript.hookLanguagePatterns
    (CommitHookScript.getLanguageFromPath filePath)).all (fun r => !reTest r text) &&
  CommitHookScript.hookBoilerplatePatterns.all (fun r => !reTest r text) &&
  !reTest CommentAnalyzer.jsdocPattern text &&
  CommitHookScript.hookAiPatterns.all (fun r => !reTest r text)

/-- Activity log used by the C4 witness: one entry for the analyzed
file, 2 seconds old at analysis time (proximity score 40). -/
def c4Log : List LogLine := [LogLine.valid ⟨"f.txt", 8000, "cmd"⟩]

/-- The comment-quality award, written the way the (amended) spec
sentence reads: 15 points exactly when a block-doc comment occurs,
plus 10 points exactly when some inline comment line's content is
longer than 10 characters and starts with a capital letter. -/
def specCommentScore (text : String) : Int :=
  (if reTest CommentAnalyzer.jsdocPattern text then 15 else 0) +
  (if (jsSplit '\n' text).any
      (fun l => CommentAnalyzer.isCommentLine l && CommentAnalyzer.isQualityComment l)
    then 10 else 0)

/-- The inline-comment quality test as claim C9 states it: content *at
least* 10 characters long (the code requires strictly more than 10). -/
def claimQualityComment (line : String) : Bool :=
  (CommentAnalyzer.commentContent line).length ≥ 10 &&
  reTest CommentAnalyzer.capitalStart (CommentAnalyzer.commentContent line)

/-! ## Sub-score bounds -/

theorem chunk_score_mem (text : String) :
    (ChunkAnalyzer.analyzeChunkSize text).score = 0 ∨
    (ChunkAnalyzer.analyzeChunkSize text).score = 10 ∨
    (ChunkAnalyzer.analyzeChunkSize text).score = 20 ∨
    (ChunkAnalyzer.analyzeChunkSize text).score = 30 := by
  unfold ChunkAnalyzer.analyzeChunkSize
  dsimp only
  split_ifs <;> simp

theorem syntax_score_mem (text languageId : String) :
    SyntaxAnalyzer.analyzeSyntacticCompleteness text languageId = 0 ∨
    SyntaxAnalyzer.analyzeSyntacticCompleteness text languageId = 25 := by
  unfold SyntaxAnalyzer.analyzeSyntacticCompleteness
  dsimp only
  split_ifs <;> simp

theorem boilerplate_score_mem (text : String) :
    (BoilerplateAnalyzer.analyzeBoilerplate text).score = 0 ∨
    (BoilerplateAnalyzer.analyzeBoilerplate text).score = 20 := by
  unfold BoilerplateAnalyzer.analyzeBoilerplate
  dsimp only
  split_ifs <;> simp

theorem comment_score_mem (text : String) :
    (CommentAnalyzer.analyzeCommentQuality text).score = 0 ∨
    (CommentAnalyzer.analyzeCommentQuality text).score = 10 ∨
    (CommentAnalyzer.analyzeCommentQuality text).score = 15 ∨
    (CommentAnalyzer.analyzeCommentQuality text).score = 25 := by
  unfold CommentAnalyzer.analyzeCommentQuality
  dsimp only
  split_ifs <;> simp

theorem proximity_score_mem (filePath : String) (log : List LogLine) (now : Int) :
    (TimeProximityAnalyzer.analyzeTimeProximity filePath log now).score = 0 ∨
    (TimeProximityAnalyzer.analyzeTimeProximity filePath log now).score = 30 ∨
    (TimeProximityAnalyzer.analyzeTimeProximity filePath log now).score = 40 ∨
    (TimeProximityAnalyzer.analyzeTimeProximity filePath log now).score = 50 := by
  unfold TimeProximityAnalyzer.analyzeTimeProximity
  dsimp only
  rcases hf : (TimeProximityAnalyzer.loadActivityLog log).find?
      (TimeProximityAnalyzer.isRecentFor filePath now) with _ | a <;> simp only [hf]
  · simp
  · split_ifs <;> simp

theorem pattern_score_mem (st : List Nat) (text : String) :
    (PatternAnalyzer.analyzePatterns st text).1 = 0 ∨
    (PatternAnalyzer.analyzePatterns st text).1 = 15 ∨
    (PatternAnalyzer.analyzePatterns st text).1 = 20 ∨
    (PatternAnalyzer.analyzePatterns st text).1 = 25 := by
  unfold PatternAnalyzer.analyzePatterns
  dsimp only
  split_ifs <;> simp

theorem detectScoreSum_nonneg (ps : List Nat) (text filePath : String)
    (log : List LogLine) (now : Int) :
    0 ≤ (GitAnalysisService.detectScoreSum ps text filePath log now).1 := by
  unfold GitAnalysisService.detectScoreSum
  have h1 := chunk_score_mem text
  have h2 := syntax_score_mem text (SyntaxAnalyzer.getLanguageFromExtension filePath)
  have h3 := boilerplate_score_mem text
  have h4 := comment_score_mem text
  have h5 := proximity_score_mem filePath log now
  have h6 := pattern_score_mem ps text
  dsimp only
  omega

theorem analyzeTextChange_nonneg (config : AIDetectionService.DetectionConfig)
    (ps : List Nat) (text filePath : String) (log : List LogLine) (now : Int) :
    0 ≤ (AIDetectionService.analyzeTextChange config ps text filePath log now).1 := by
  unfold AIDetectionService.analyzeTextChange
  have h1 := chunk_score_mem text
  have h2 := syntax_score_mem text (SyntaxAnalyzer.getLanguageFromExtension filePath)
  have h3 := boilerplate_score_mem text
  have h4 := comment_score_mem text
  have h5 := proximity_score_mem filePath log now
  have h6 := pattern_score_mem ps text
  dsimp only
  split_ifs <;> simp_all <;> omega

theorem sumChanges_nonneg (config : AIDetectionService.DetectionConfig)
    (filePath : String) (log : List LogLine) (now : Int)
    (changes : List String) (ps : List Nat) :
    0 ≤ (AIDetectionService.sumChanges config filePath log now changes ps).1 := by
  induction changes generalizing ps with
  | nil => simp [AIDetectionService.sumChanges]
  | cons text rest ih =>
    unfold AIDetectionService.sumChanges
    split_ifs
    · exact ih ps
    · have h1 := analyzeTextChange_nonneg config ps text filePath log now
      have h2 := ih (AIDetectionService.analyzeTextChange config ps text filePath log now).2
      dsimp only
      omega

/-! ## Claim C1 -/

/-- Claim C1: for every analyzed added text the resulting detection
confidence lies between 0 and 100 inclusive, even when the analyzer
sub-scores sum beyond 100 — in the staged-diff path
`GitAnalysisService.detectAIInText` and in the editor-side engine
`AIDetectionService.detectAI` (for every configuration, pattern state
and change list). -/
theorem C1_confidence_clamped (ps : List Nat) (text filePath : String)
    (log : List LogLine) (now : Int)
    (config : AIDetectionService.DetectionConfig) (changes : List String)
    (fsPath : String) :
    (0 ≤ (GitAnalysisService.detectAIInText ps text filePath log now).1.confidence ∧
     (GitAnalysisService.detectAIInText ps text filePath log now).1.confidence ≤ 100) ∧
    (0 ≤ (AIDetectionService.detectAI config ps changes fsPath log now).1.confidence ∧
     (AIDetectionService.detectAI config ps changes fsPath log now).1.confidence ≤ 100) := by
  have h1 := detectScoreSum_nonneg ps text filePath log now
  have h2 := sumChanges_nonneg config fsPath log now changes ps
  unfold GitAnalysisService.detectAIInText AIDetectionService.detectAI
  dsimp only
  omega

/-! ## Claim C2

Every sub-score is a multiple of 5, so a summed score of exactly 69
never arises; the 69 half of the claim is proved in the stronger form
`totalScore ≤ 69 → not AI-generated`, which subsumes it. -/

/-- Claim C2: with the default confidence threshold of 70, an analyzed
fragment whose summed sub-scores are exactly 70 is classified
`isAiGenerated = true`, and one producing 69 (or anything below 70) is
classified `isAiGenerated = false` — in `detectAIInText` and in
`detectAI` under the default configuration. -/
theorem C2_threshold_boundary (ps : List Nat) (text filePath : String)
    (log : List LogLine) (now : Int) (changes : List String) :
    ((GitAnalysisService.detectScoreSum ps text filePath log now).1 = 70 →
      (GitAnalysisService.detectAIInText ps text filePath log now).1.isAiGenerated = true) ∧
    ((GitAnalysisService.detectScoreSum ps text filePath log now).1 ≤ 69 →
      (GitAnalysisService.detectAIInText ps text filePath log now).1.isAiGenerated = false) ∧
    ((AIDetectionService.sumChanges AIDetectionService.defaultConfig filePath log now changes ps).1 = 70 →
      (AIDetectionService.detectAI AIDetectionService.defaultConfig ps changes filePath log now).1.isAiGenerated = true) ∧
    ((AIDetectionService.sumChanges AIDetectionService.defaultConfig filePath log now changes ps).1 ≤ 69 →
      (AIDetectionService.detectAI AIDetectionService.defaultConfig ps changes filePath log now).1.isAiGenerated = false) := by
  unfold GitAnalysisService.detectAIInText AIDetectionService.detectAI
  dsimp only
  refine ⟨fun h => ?_, fun h => ?_, fun h => ?_, fun h => ?_⟩ <;>
  · simp only [AIDetectionService.defaultConfig] at h ⊢
    simp only [h, decide_eq_true_eq, decide_eq_false_iff_not, ge_iff_le]
    omega

/-- Witness for C2: concrete fragments summing to exactly 70 are
classified AI-generated by both engines, and fragments summing below
70 are not. -/
theorem C2_threshold_boundary_witness :
    (GitAnalysisService.detectScoreSum PatternAnalyzer.freshState c2Text "f.txt" c2Log 10000).1 = 70 ∧
    (GitAnalysisService.detectAIInText PatternAnalyzer.freshState c2Text "f.txt" c2Log 10000).1.isAiGenerated = true ∧
    (AIDetectionService.sumChanges AIDetectionService.defaultConfig "f.txt" c2LogB 10000
        [c2TextPadded] PatternAnalyzer.freshState).1 = 70 ∧
    (AIDetectionService.detectAI AIDetectionService.defaultConfig PatternAnalyzer.freshState
        [c2TextPadded] "f.txt" c2LogB 10000).1.isAiGenerated = true ∧
    (GitAnalysisService.detectScoreSum PatternAnalyzer.freshState "a" "f.txt" [] 10000).1 ≤ 69 ∧
    (GitAnalysisService.detectAIInText PatternAnalyzer.freshState "a" "f.txt" [] 10000).1.isAiGenerated = false ∧
    (AIDetectionService.detectAI AIDetectionService.defaultConfig PatternAnalyzer.freshState
        [] "f.txt" [] 10000).1.isAiGenerated = false := by
  have h1 : (GitAnalysisService.detectScoreSum PatternAnalyzer.freshState c2Text "f.txt"
      c2Log 10000).1 = 70 := by decide
  have h2 : (AIDetectionService.sumChanges AIDetectionService.defaultConfig "f.txt" c2LogB
      10000 [c2TextPadded] PatternAnalyzer.freshState).1 = 70 := by decide
  have h3 : (GitAnalysisService.detectScoreSum PatternAnalyzer.freshState "a" "f.txt"
      [] 10000).1 ≤ 69 := by decide
  have h4 : (AIDetectionService.sumChanges AIDetectionService.defaultConfig "f.txt" []
      10000 [] PatternAnalyzer.freshState).1 ≤ 69 := by decide
  exact ⟨h1,
    (C2_threshold_boundary PatternAnalyzer.freshState c2Text "f.txt" c2Log 10000 []).1 h1,
    h2,
    (C2_threshold_boundary PatternAnalyzer.freshState "" "f.txt" c2LogB 10000 [c2TextPadded]).2.2.1 h2,
    h3,
    (C2_threshold_boundary PatternAnalyzer.freshState "a" "f.txt" [] 10000 []).2.1 h3,
    (C2_threshold_boundary PatternAnalyzer.freshState "" "f.txt" [] 10000 []).2.2.2 h4⟩

/-! ## Claim C3

`loadActivityLog` wraps the whole line-by-line `JSON.parse` in a
single `try`/`catch`, so one malformed non-blank line aborts the read
and every valid entry is lost for that read: the claim's
"malformed lines are skipped individually" half fails (only blank
lines are skipped individually, by the `filter` that runs before the
parse). The write-then-read round trip itself holds for up to 100
entries (`recordActivity` keeps only the most recent 100). -/

theorem parseAll_map_valid (l : List ActivityLogEntry) :
    TimeProximityAnalyzer.parseAll (l.map LogLine.valid) = some l := by
  induction l with
  | nil => rfl
  | cons e t ih => simp [TimeProximityAnalyzer.parseAll, TimeProximityAnalyzer.parseLine, ih]

theorem load_map_valid (l : List ActivityLogEntry) :
    TimeProximityAnalyzer.loadActivityLog (l.map LogLine.valid) = l := by
  unfold TimeProximityAnalyzer.loadActivityLog
  rw [List.filter_eq_self.2 (by simp [TimeProximityAnalyzer.isBlank])]
  simp [parseAll_map_valid]

theorem record_on_valid (l : List ActivityLogEntry) (f c : String) (now : Int) :
    TimeProximityAnalyzer.recordActivity (l.map LogLine.valid) f c now
      = (TimeProximityAnalyzer.sliceLast100 (l ++ [⟨f, now, c⟩])).map LogLine.valid := by
  unfold TimeProximityAnalyzer.recordActivity TimeProximityAnalyzer.saveActivityLog
  rw [load_map_valid]

/-- The `recordActivity` fold over a list of entries, starting from a
well-formed log: while the total stays within 100 the log is exactly
the accumulated entries, in order. -/
theorem record_foldl (es : List ActivityLogEntry) :
    ∀ l : List ActivityLogEntry, l.length + es.length ≤ 100 →
      es.foldl (fun file e =>
          TimeProximityAnalyzer.recordActivity file e.file e.command e.timestamp)
        (l.map LogLine.valid)
        = (l ++ es).map LogLine.valid := by
  induction es with
  | nil => intro l _; simp
  | cons e t ih =>
    intro l h
    have hlen : (l ++ [e]).length - 100 = 0 := by
      simp only [List.length_append, List.length_cons] at h ⊢
      simp
      omega
    have hstep : TimeProximityAnalyzer.recordActivity (l.map LogLine.valid)
        e.file e.command e.timestamp = ((l ++ [e]).map LogLine.valid) := by
      rw [record_on_valid]
      unfold TimeProximityAnalyzer.sliceLast100
      rw [hlen, List.drop_zero]
    rw [List.foldl_cons, hstep, ih (l ++ [e]) (by simp at h ⊢; omega)]
    simp

/-- Claim C3 (amended): writing N ≤ 100 activity entries into an empty
log and then reading it back yields the same N entries in their
original order, and blank lines are individually skipped by a read;
but a read of a log containing a malformed non-blank line returns the
empty list (see the counterexample), so malformed lines are *not*
individually skipped — one aborts the whole read. -/
theorem C3_round_trip (es : List ActivityLogEntry) (h : es.length ≤ 100) :
    TimeProximityAnalyzer.loadActivityLog
      (es.foldl (fun file e =>
        TimeProximityAnalyzer.recordActivity file e.file e.command e.timestamp) [])
      = es ∧
    ∀ file : List LogLine,
      TimeProximityAnalyzer.loadActivityLog (LogLine.blank :: file)
        = TimeProximityAnalyzer.loadActivityLog file := by
  constructor
  · have h0 := record_foldl es [] (by simpa using h)
    simp only [List.map_nil, List.nil_append] at h0
    rw [h0, load_map_valid]
  · intro file
    unfold TimeProximityAnalyzer.loadActivityLog
    simp [TimeProximityAnalyzer.isBlank]

/-- Witness for C3: two concrete entries written in sequence read back
unchanged, and a leading blank line is skipped. -/
theorem C3_round_trip_witness :
    TimeProximityAnalyzer.loadActivityLog
      (([⟨"a.ts", 1, "c1"⟩, ⟨"b.ts", 2, "c2"⟩] : List ActivityLogEntry).foldl
        (fun file e =>
          TimeProximityAnalyzer.recordActivity file e.file e.command e.timestamp) [])
      = [⟨"a.ts", 1, "c1"⟩, ⟨"b.ts", 2, "c2"⟩] ∧
    TimeProximityAnalyzer.loadActivityLog
        (LogLine.blank :: [LogLine.valid ⟨"a.ts", 1, "c1"⟩])
      = TimeProximityAnalyzer.loadActivityLog [LogLine.valid ⟨"a.ts", 1, "c1"⟩] :=
  ⟨(C3_round_trip [⟨"a.ts", 1, "c1"⟩, ⟨"b.ts", 2, "c2"⟩] (by decide)).1,
   (C3_round_trip [] (by decide)).2 [LogLine.valid ⟨"a.ts", 1, "c1"⟩]⟩

/-- Counterexample for C3 as stated: a log holding two valid entries
with a malformed line between them reads back as the empty list — the
valid entries are lost, not preserved. -/
theorem C3_malformed_line_aborts_read :
    TimeProximityAnalyzer.loadActivityLog
      [LogLine.valid ⟨"a.ts", 1, "c1"⟩, LogLine.malformed,
       LogLine.valid ⟨"b.ts", 2, "c2"⟩] = [] ∧
    TimeProximityAnalyzer.loadActivityLog
      [LogLine.valid ⟨"a.ts", 1, "c1"⟩, LogLine.malformed,
       LogLine.valid ⟨"b.ts", 2, "c2"⟩]
      ≠ [⟨"a.ts", 1, "c1"⟩, ⟨"b.ts", 2, "c2"⟩] := by decide

/-! ## Claim C4

Helper lemmas: under `tokenFree` every analyzer except time-proximity
contributes 0. -/

theorem searchFrom_none_of_reTest_false {r : Reg} {text : String}
    (h : reTest r text = false) : searchFrom r none text.data 0 = none := by
  unfold reTest at h
  rcases hh : searchFrom r none text.data 0 with _ | v
  · rfl
  · rw [hh] at h
    simp at h

theorem testG_zero_of_reTest_false {r : Reg} {text : String}
    (h : reTest r text = false) : testG r text.data 0 = (false, 0) := by
  simp [testG, prevAt, searchFrom_none_of_reTest_false h]

theorem chunk_zero_of_short {text : String} (hlen : text.length ≤ 100) :
    (ChunkAnalyzer.analyzeChunkSize text).score = 0 := by
  unfold ChunkAnalyzer.analyzeChunkSize
  dsimp only
  split_ifs with h1 h2 h3
  · omega
  · omega
  · omega
  · rfl

theorem syntax_zero_of_no_match {text lang : String}
    (h : ∀ r ∈ SyntaxAnalyzer.languagePatterns lang, reTest r text = false) :
    SyntaxAnalyzer.analyzeSyntacticCompleteness text lang = 0 := by
  unfold SyntaxAnalyzer.analyzeSyntacticCompleteness
  dsimp only
  rw [List.filter_eq_nil_iff.2 (fun a ha => by simp [h a ha])]
  simp

theorem boilerplate_zero_of_no_match {text : String}
    (h : ∀ np ∈ BoilerplateAnalyzer.boilerplatePatterns, reTest np.2 text = false) :
    (BoilerplateAnalyzer.analyzeBoilerplate text).score = 0 := by
  unfold BoilerplateAnalyzer.analyzeBoilerplate
  dsimp only
  rw [List.filter_eq_nil_iff.2 (fun a ha => by simp [h a ha])]
  simp

theorem comment_zero_of_no_comments {text : String}
    (h1 : reTest CommentAnalyzer.jsdocPattern text = false)
    (h2 : ∀ l ∈ jsSplit '\n' text, CommentAnalyzer.isCommentLine l = false) :
    (CommentAnalyzer.analyzeCommentQuality text).score = 0 := by
  unfold CommentAnalyzer.analyzeCommentQuality
  dsimp only
  have hcl : (jsSplit '\n' text).filter CommentAnalyzer.isCommentLine = [] :=
    List.filter_eq_nil_iff.2 (fun a ha => by simp [h2 a ha])
  rw [h1, hcl]
  simp

theorem pattern_zero_of_no_match {text : String}
    (h : ∀ r ∈ PatternAnalyzer.aiPatterns, reTest r text = false) :
    PatternAnalyzer.analyzePatterns PatternAnalyzer.freshState text
      = (0, PatternAnalyzer.freshState) := by
  have t : ∀ r ∈ PatternAnalyzer.aiPatterns, testG r text.data 0 = (false, 0) :=
    fun r hr => testG_zero_of_reTest_false (h r hr)
  have t1 := t PatternAnalyzer.multiLineComments (by simp [PatternAnalyzer.aiPatterns])
  have t2 := t PatternAnalyzer.singleLineComments (by simp [PatternAnalyzer.aiPatterns])
  have t3 := t PatternAnalyzer.functionDefinitions (by simp [PatternAnalyzer.aiPatterns])
  have t4 := t PatternAnalyzer.constantDefinitions (by simp [PatternAnalyzer.aiPatterns])
  have t5 := t PatternAnalyzer.importStatements (by simp [PatternAnalyzer.aiPatterns])
  have t6 := t PatternAnalyzer.interfaceDefinitions (by simp [PatternAnalyzer.aiPatterns])
  have t7 := t PatternAnalyzer.typeDefinitions (by simp [PatternAnalyzer.aiPatterns])
  have t8 := t PatternAnalyzer.exportStatements (by simp [PatternAnalyzer.aiPatterns])
  unfold PatternAnalyzer.analyzePatterns PatternAnalyzer.aiPatterns
    PatternAnalyzer.freshState
  simp [PatternAnalyzer.runTests, t1, t2, t3, t4, t5, t6, t7, t8]

/-- Splitting the `tokenFree` conjunction into its membership forms. -/
theorem tokenFree_parts {text filePath : String} (h : tokenFree text filePath = true) :
    (∀ r ∈ PatternAnalyzer.aiPatterns, reTest r text = false) ∧
    (∀ np ∈ BoilerplateAnalyzer.boilerplatePatterns, reTest np.2 text = false) ∧
    (∀ r ∈ SyntaxAnalyzer.languagePatterns
      (SyntaxAnalyzer.getLanguageFromExtension filePath), reTest r text = false) ∧
    reTest CommentAnalyzer.jsdocPattern text = false ∧
    (∀ l ∈ jsSplit '\n' text, CommentAnalyzer.isCommentLine l = false) := by
  unfold tokenFree at h
  simp only [Bool.and_eq_true, List.all_eq_true, Bool.not_eq_true'] at h
  exact ⟨h.1.1.1.1, h.1.1.1.2, h.1.1.2, h.1.2, h.2⟩

/-- Under `tokenFree` and the 100-character bound, the staged-diff
engine's summed sub-scores reduce to the time-proximity score. -/
theorem detectScoreSum_of_tokenFree {text filePath : String}
    (log : List LogLine) (now : Int)
    (hfree : tokenFree text filePath = true) (hlen : text.length ≤ 100) :
    GitAnalysisService.detectScoreSum PatternAnalyzer.freshState text filePath log now
      = ((TimeProximityAnalyzer.analyzeTimeProximity filePath log now).score,
         PatternAnalyzer.freshState) := by
  obtain ⟨hai, hboil, hsyn, hjsdoc, hlines⟩ := tokenFree_parts hfree
  unfold GitAnalysisService.detectScoreSum
  rw [pattern_zero_of_no_match hai]
  dsimp only
  rw [chunk_zero_of_short hlen, syntax_zero_of_no_match hsyn,
    boilerplate_zero_of_no_match hboil, comment_zero_of_no_comments hjsdoc hlines]
  ring_nf

/-- The same for one analyzed change of the editor-side engine under
the default configuration. -/
theorem analyzeTextChange_of_tokenFree {text filePath : String}
    (log : List LogLine) (now : Int)
    (hfree : tokenFree text filePath = true) (hlen : text.length ≤ 100) :
    AIDetectionService.analyzeTextChange AIDetectionService.defaultConfig
      PatternAnalyzer.freshState text filePath log now
      = ((TimeProximityAnalyzer.analyzeTimeProximity filePath log now).score,
         PatternAnalyzer.freshState) := by
  obtain ⟨hai, hboil, hsyn, hjsdoc, hlines⟩ := tokenFree_parts hfree
  unfold AIDetectionService.analyzeTextChange
  simp only [AIDetectionService.defaultConfig, if_pos]
  rw [pattern_zero_of_no_match hai]
  dsimp only
  rw [chunk_zero_of_short hlen, syntax_zero_of_no_match hsyn,
    boilerplate_zero_of_no_match hboil, comment_zero_of_no_comments hjsdoc hlines]
  ring_nf

theorem proximity_score_le_100 (filePath : String) (log : List LogLine) (now : Int) :
    (TimeProximityAnalyzer.analyzeTimeProximity filePath log now).score ≤ 100 := by
  rcases proximity_score_mem filePath log now with h | h | h | h <;> omega

/-- Claim C4 (amended): for a text of at most 100 characters with no
structural tokens, the staged-diff path `detectAIInText` returns
exactly the time-proximity score as its confidence; the editor-side
`detectAI`, however, analyzes a change only when its length reaches
the 100-character chunk threshold — a change of exactly 100 characters
yields the time-proximity score, while any shorter change is skipped
outright and yields confidence 0 whatever the Activity Log says (see
the counterexample). -/
theorem C4_proximity_only (text filePath : String) (log : List LogLine) (now : Int)
    (hfree : tokenFree text filePath = true) (hlen : text.length ≤ 100) :
    (GitAnalysisService.detectAIInText PatternAnalyzer.freshState text filePath
        log now).1.confidence
      = (TimeProximityAnalyzer.analyzeTimeProximity filePath log now).score ∧
    (text.length = 100 →
      (AIDetectionService.detectAI AIDetectionService.defaultConfig
          PatternAnalyzer.freshState [text] filePath log now).1.confidence
        = (TimeProximityAnalyzer.analyzeTimeProximity filePath log now).score) ∧
    (text.length < 100 →
      (AIDetectionService.detectAI AIDetectionService.defaultConfig
          PatternAnalyzer.freshState [text] filePath log now).1.confidence = 0) := by
  have hprox0 : 0 ≤ (TimeProximityAnalyzer.analyzeTimeProximity filePath log now).score := by
    rcases proximity_score_mem filePath log now with h | h | h | h <;> omega
  have hprox100 := proximity_score_le_100 filePath log now
  refine ⟨?_, fun hexact => ?_, fun hshort => ?_⟩
  · unfold GitAnalysisService.detectAIInText
    rw [detectScoreSum_of_tokenFree log now hfree hlen]
    dsimp only
    omega
  · have hsum : AIDetectionService.sumChanges AIDetectionService.defaultConfig
        filePath log now [text] PatternAnalyzer.freshState
        = ((TimeProximityAnalyzer.analyzeTimeProximity filePath log now).score,
           PatternAnalyzer.freshState) := by
      unfold AIDetectionService.sumChanges
      rw [if_neg (by simp [AIDetectionService.defaultConfig, hexact])]
      rw [analyzeTextChange_of_tokenFree log now hfree hlen]
      dsimp only
      rw [show AIDetectionService.sumChanges AIDetectionService.defaultConfig
        filePath log now [] PatternAnalyzer.freshState
        = (0, PatternAnalyzer.freshState) from rfl]
      simp
    unfold AIDetectionService.detectAI
    rw [hsum]
    dsimp only
    omega
  · have hsum : AIDetectionService.sumChanges AIDetectionService.defaultConfig
        filePath log now [text] PatternAnalyzer.freshState
        = (0, PatternAnalyzer.freshState) := by
      unfold AIDetectionService.sumChanges
      rw [if_pos (by simp [AIDetectionService.defaultConfig]; omega)]
      rfl
    unfold AIDetectionService.detectAI
    rw [hsum]
    dsimp only
    omega

/-- Witness for C4: an 11-character token-free text gets exactly the
proximity score (40 here) from `detectAIInText`, and a 100-character
token-free change gets it from `detectAI`. -/
theorem C4_proximity_only_witness :
    (GitAnalysisService.detectAIInText PatternAnalyzer.freshState "hello world"
        "f.txt" c4Log 10000).1.confidence
      = (TimeProximityAnalyzer.analyzeTimeProximity "f.txt" c4Log 10000).score ∧
    (AIDetectionService.detectAI AIDetectionService.defaultConfig
        PatternAnalyzer.freshState [String.mk (List.replicate 100 'a')] "f.txt"
        c4Log 10000).1.confidence
      = (TimeProximityAnalyzer.analyzeTimeProximity "f.txt" c4Log 10000).score :=
  ⟨(C4_proximity_only "hello world" "f.txt" c4Log 10000 (by decide) (by decide)).1,
   (C4_proximity_only (String.mk (List.replicate 100 'a')) "f.txt" c4Log 10000
      (by decide) (by decide)).2.1 (by decide)⟩

/-- Counterexample for C4 as stated: a 99-character token-free change
whose file has a 500 ms-old Activity Log entry (proximity score 50)
gets confidence 0 from the editor-side `detectAI`, not the
time-proximity score — the change is below the chunk-size threshold
and is skipped entirely. -/
theorem C4_short_change_not_proximity :
    (AIDetectionService.detectAI AIDetectionService.defaultConfig
        PatternAnalyzer.freshState [String.mk (List.replicate 99 'a')] "f.txt"
        [LogLine.valid ⟨"f.txt", 9500, "cmd"⟩] 10000).1.confidence = 0 ∧
    (TimeProximityAnalyzer.analyzeTimeProximity "f.txt"
        [LogLine.valid ⟨"f.txt", 9500, "cmd"⟩] 10000).score = 50 ∧
    tokenFree (String.mk (List.replicate 99 'a')) "f.txt" = true ∧
    (String.mk (List.replicate 99 'a')).length ≤ 100 :=
  ⟨by decide, by decide, by decide, by decide⟩

/-! ## Claim C5

`PatternAnalyzer.aiPatterns` is built once per analyzer object and
every regex in it carries the `g` flag; `analyzePatterns` calls
`test()` on those shared objects. A successful `test()` on a
`g`-flagged regex advances its persistent `lastIndex`, so the next
call starts searching mid-string and misses a pattern that occurs only
once. The analyzer is therefore not a pure function of its input: the
spec's purity sentence is right and the code has a bug (the sibling
`getMatchedPatterns`, and the identical logic in the fallback script,
create their regexes afresh per call and are pure). -/

/-- Claim C5 (code bug, evaluated at the failing input): on a text
containing one `const`, one `function` and one `import ... from`, the
first `analyzePatterns` call counts 3 kinds and returns 20; the
immediately repeated call on the very same text returns 0, because the
three matching patterns' `lastIndex` values now point past their only
occurrences. The divergence propagates to `detectAIInText`, whose
confidence for the identical input drops from 20 to 0 on the second
run. -/
theorem C5_pattern_analyzer_stateful :
    (PatternAnalyzer.analyzePatterns PatternAnalyzer.freshState
      "const a = 1 function f( import x from m").1 = 20 ∧
    (PatternAnalyzer.analyzePatterns
      (PatternAnalyzer.analyzePatterns PatternAnalyzer.freshState
        "const a = 1 function f( import x from m").2
      "const a = 1 function f( import x from m").1 = 0 ∧
    (GitAnalysisService.detectAIInText PatternAnalyzer.freshState
      "const a = 1 function f( import x from m" "f.txt" [] 0).1.confidence = 20 ∧
    (GitAnalysisService.detectAIInText
      (GitAnalysisService.detectAIInText PatternAnalyzer.freshState
        "const a = 1 function f( import x from m" "f.txt" [] 0).2
      "const a = 1 function f( import x from m" "f.txt" [] 0).1.confidence = 0 :=
  ⟨by decide, by decide, by decide, by decide⟩

/-! ## Claim C6

The fallback script's analysis is similar but not the same: its
time-proximity is a flat 40 points inside a 5-minute window (the
editor side tiers 50/40/30 inside 5 seconds), its comment score is 15
for doc comments only (no inline-comment award), and its syntax,
boilerplate and lexical pattern sets are reduced. Identical inputs can
so receive different confidences. What the two do share: the
chunk-size tiers, the clamp to 100 and the threshold-70
classification, and on quiet inputs (no token, short text, no recent
activity for the file) both return confidence 0 / not AI. -/

theorem hookTokenFree_parts {text filePath : String}
    (h : hookTokenFree text filePath = true) :
    (∀ r ∈ CommitHookScript.hookLanguagePatterns
      (CommitHookScript.getLanguageFromPath filePath), reTest r text = false) ∧
    (∀ r ∈ CommitHookScript.hookBoilerplatePatterns, reTest r text = false) ∧
    reTest CommentAnalyzer.jsdocPattern text = false ∧
    (∀ r ∈ CommitHookScript.hookAiPatterns, reTest r text = false) := by
  unfold hookTokenFree at h
  simp only [Bool.and_eq_true, List.all_eq_true, Bool.not_eq_true'] at h
  exact ⟨h.1.1.1, h.1.1.2, h.1.2, h.2⟩

theorem proximity_zero_of_find_none {filePath : String} {log : List LogLine}
    {now : Int}
    (h : (TimeProximityAnalyzer.loadActivityLog log).find?
      (TimeProximityAnalyzer.isRecentFor filePath now) = none) :
    TimeProximityAnalyzer.analyzeTimeProximity filePath log now = ⟨0, none⟩ := by
  unfold TimeProximityAnalyzer.analyzeTimeProximity
  dsimp only
  rw [h]

/-- Claim C6 (amended): on a token-free text of at most 100 characters
whose file has no Activity Log entry within the last 5 minutes, the
fallback script and the editor-side staged-diff engine agree:
confidence 0, not AI-generated. (In general they disagree — see the
counterexample — because the script's analyzers are simplified.) -/
theorem C6_fallback_agreement (text filePath : String) (log : List LogLine) (now : Int)
    (h1 : tokenFree text filePath = true)
    (h2 : hookTokenFree text filePath = true)
    (h3 : text.length ≤ 100)
    (h4 : ∀ a ∈ TimeProximityAnalyzer.loadActivityLog log,
      ¬(a.file = filePath ∧ now - a.timestamp < 300000)) :
    CommitHookScript.detectAIInText text filePath log now = ⟨false, 0⟩ ∧
    (GitAnalysisService.detectAIInText PatternAnalyzer.freshState text filePath
      log now).1 = ⟨false, 0⟩ := by
  obtain ⟨hsyn, hboil, hjsdoc, hai⟩ := hookTokenFree_parts h2
  have hfindBig : (TimeProximityAnalyzer.loadActivityLog log).find?
      (fun a => a.file == filePath && now - a.timestamp < 300000) = none := by
    rw [List.find?_eq_none]
    intro a ha
    simp only [Bool.and_eq_true, beq_iff_eq, decide_eq_true_eq, not_and]
    intro hf hlt
    exact h4 a ha ⟨hf, hlt⟩
  have hfindSmall : (TimeProximityAnalyzer.loadActivityLog log).find?
      (TimeProximityAnalyzer.isRecentFor filePath now) = none := by
    rw [List.find?_eq_none]
    intro a ha
    unfold TimeProximityAnalyzer.isRecentFor
    simp only [TimeProximityAnalyzer.proximityWindow, Bool.and_eq_true, beq_iff_eq,
      decide_eq_true_eq, not_and]
    intro hf hlt
    exact h4 a ha ⟨hf, by omega⟩
  constructor
  · have hscore : CommitHookScript.hookScoreSum text filePath log now = 0 := by
      unfold CommitHookScript.hookScoreSum CommitHookScript.checkTimeProximity
        CommitHookScript.checkAIPatterns
      dsimp only
      rw [hfindBig]
      rw [show CommitHookScript.hasCompleteStructures text
          (CommitHookScript.getLanguageFromPath filePath) = false from by
        unfold CommitHookScript.hasCompleteStructures
        rw [← Bool.not_eq_true, List.any_eq_true]
        rintro ⟨r, hr, hrt⟩
        rw [hsyn r hr] at hrt
        exact Bool.false_ne_true hrt]
      rw [show CommitHookScript.hasBoilerplatePatterns text = false from by
        unfold CommitHookScript.hasBoilerplatePatterns
        rw [← Bool.not_eq_true, List.any_eq_true]
        rintro ⟨r, hr, hrt⟩
        rw [hboil r hr] at hrt
        exact Bool.false_ne_true hrt]
      rw [show CommitHookScript.hasHighQualityComments text = false from hjsdoc]
      rw [List.filter_eq_nil_iff.2 (fun r hr => by simp [hai r hr])]
      simp only [List.length_nil, Bool.false_eq_true, if_false]
      split_ifs <;> omega
    unfold CommitHookScript.detectAIInText
    rw [hscore]
    rfl
  · unfold GitAnalysisService.detectAIInText
    rw [detectScoreSum_of_tokenFree log now h1 h3,
      proximity_zero_of_find_none hfindSmall]
    rfl

/-- Witness for C6: a one-word text, an empty log. -/
theorem C6_fallback_agreement_witness :
    CommitHookScript.detectAIInText "hello" "f.txt" [] 10000 = ⟨false, 0⟩ ∧
    (GitAnalysisService.detectAIInText PatternAnalyzer.freshState "hello" "f.txt"
      [] 10000).1 = ⟨false, 0⟩ :=
  C6_fallback_agreement "hello" "f.txt" [] 10000 (by decide) (by decide)
    (by decide) (by decide)

/-- Counterexample for C6 as stated: on the same added text, file path
and Activity Log state, the editor-side engine returns confidence 25
(inline-comment quality 10 + two lexical pattern kinds 15) while the
fallback script returns confidence 0 — its pattern list has no
single-line-comment regex and its comment analyzer ignores inline
comments. -/
theorem C6_fallback_divergence :
    (GitAnalysisService.detectAIInText PatternAnalyzer.freshState
      "// This is a quality comment here\nconst a = 1" "f.txt" [] 10000).1.confidence = 25 ∧
    (CommitHookScript.detectAIInText
      "// This is a quality comment here\nconst a = 1" "f.txt" [] 10000).confidence = 0 :=
  ⟨by decide, by decide⟩

/-! ## Claim C7

`analyzeTimeProximity` takes the *first* `Array.prototype.find` match
over the loaded log, and `recordActivity` appends new entries at the
end, so the log is in chronological order and the scan is
oldest-first — not the claim's newest-first. The tier values
(50 under 1 s, 40 under 3 s, 30 under 5 s, else 0) are as claimed. -/

theorem find?_eq_head_filter {α : Type} (p : α → Bool) (l : List α) :
    l.find? p = (l.filter p).head? := by
  induction l with
  | nil => rfl
  | cons a t ih =>
    rw [List.find?_cons, List.filter_cons]
    cases hpa : p a
    · simp only [Bool.false_eq_true, if_false]
      exact ih
    · simp

/-- Claim C7 (amended): the analyzer scores 50/40/30 by the age of the
matched entry and 0 when no entry for the file lies within the
5-second window; when several entries qualify, the one used is the
first in log order, i.e. the *oldest* qualifying entry (the code scans
oldest-first, not newest-first — see the counterexample). -/
theorem C7_time_proximity_tiers (filePath : String) (log : List LogLine) (now : Int) :
    ((TimeProximityAnalyzer.loadActivityLog log).filter
        (TimeProximityAnalyzer.isRecentFor filePath now) = [] →
      TimeProximityAnalyzer.analyzeTimeProximity filePath log now = ⟨0, none⟩) ∧
    (∀ a rest,
      (TimeProximityAnalyzer.loadActivityLog log).filter
        (TimeProximityAnalyzer.isRecentFor filePath now) = a :: rest →
      TimeProximityAnalyzer.analyzeTimeProximity filePath log now
        = ⟨if now - a.timestamp < 1000 then 50
           else if now - a.timestamp < 3000 then 40 else 30, some a⟩) := by
  constructor
  · intro h
    apply proximity_zero_of_find_none
    rw [find?_eq_head_filter, h]
    rfl
  · intro a rest h
    unfold TimeProximityAnalyzer.analyzeTimeProximity
    dsimp only
    rw [find?_eq_head_filter, h]
    simp only [List.head?_cons]
    split_ifs <;> rfl

/-- Witness for C7: a log with two qualifying entries for the file
(ages 4 s and 0.5 s); the analyzer reports the first, 4-second-old one
(tier 30). -/
theorem C7_time_proximity_tiers_witness :
    TimeProximityAnalyzer.analyzeTimeProximity "f"
      [LogLine.valid ⟨"f", 6000, "c1"⟩, LogLine.valid ⟨"f", 9500, "c2"⟩] 10000
      = ⟨30, some ⟨"f", 6000, "c1"⟩⟩ := by
  have h := (C7_time_proximity_tiers "f"
    [LogLine.valid ⟨"f", 6000, "c1"⟩, LogLine.valid ⟨"f", 9500, "c2"⟩] 10000).2
    ⟨"f", 6000, "c1"⟩ [⟨"f", 9500, "c2"⟩] (by decide)
  rw [h]
  decide

/-- Counterexample for C7 as stated: with an old (4 s) and a new
(0.5 s) qualifying entry in the log, the newest matching entry is
0.5 s old, so a newest-first scan would score 50 — the code scores 30,
from the oldest matching entry. -/
theorem C7_not_newest_first :
    (TimeProximityAnalyzer.analyzeTimeProximity "f"
      [LogLine.valid ⟨"f", 6000, "c1"⟩, LogLine.valid ⟨"f", 9500, "c2"⟩] 10000).score = 30 ∧
    ((TimeProximityAnalyzer.loadActivityLog
        [LogLine.valid ⟨"f", 6000, "c1"⟩, LogLine.valid ⟨"f", 9500, "c2"⟩]).reverse.filter
      (TimeProximityAnalyzer.isRecentFor "f" 10000)).head? = some ⟨"f", 9500, "c2"⟩ ∧
    ((10000 : Int) - 9500 < 1000) ∧ (30 : Int) ≠ 50 :=
  ⟨by decide, by decide, by decide, by decide⟩

/-! ## Claim C8 -/

/-- Claim C8: the attribution-flag lifecycle. Writing then reading
then deleting leaves no flag; deleting an absent flag raises no error
and deletion is idempotent; writing the flag a second time before it
is consumed changes nothing but the stored timestamp (the state after
a double write equals the state after a single write of the latest
timestamp, and presence is unchanged). -/
theorem C8_flag_lifecycle (st : AttributionFlag.FlagFile) (ts ts2 : String) :
    AttributionFlag.checkAIAttributionFlag (AttributionFlag.setAIAttributionFlag ts st) = true ∧
    (AttributionFlag.cleanupAIAttributionFlag (AttributionFlag.setAIAttributionFlag ts st)).1 = none ∧
    AttributionFlag.cleanupAIAttributionFlag none = (none, false) ∧
    (AttributionFlag.cleanupAIAttributionFlag st).2 = false ∧
    AttributionFlag.cleanupAIAttributionFlag
      (AttributionFlag.cleanupAIAttributionFlag st).1 = (none, false) ∧
    AttributionFlag.setAIAttributionFlag ts2 (AttributionFlag.setAIAttributionFlag ts st)
      = AttributionFlag.setAIAttributionFlag ts2 st ∧
    AttributionFlag.setAIAttributionFlag ts st = some ts := by
  cases st <;>
    simp [AttributionFlag.checkAIAttributionFlag, AttributionFlag.setAIAttributionFlag,
      AttributionFlag.cleanupAIAttributionFlag, AttributionFlag.existsSync,
      AttributionFlag.writeFileSync, AttributionFlag.unlinkSync]

/-! ## Claim C9

The inline-comment award requires the comment content to be *strictly
longer* than 10 characters (`comment.length > 10`); a 10-character
content that the claim's "at least 10" wording covers gets nothing. -/

theorem filter_filter_length_pos {α : Type} (p q : α → Bool) (l : List α) :
    (0 < ((l.filter p).filter q).length) ↔ l.any (fun x => p x && q x) = true := by
  induction l with
  | nil => simp
  | cons a t ih =>
    rw [List.filter_cons, List.any_cons]
    cases hpa : p a
    · simp only [Bool.false_eq_true, if_false, Bool.false_and, Bool.false_or]
      exact ih
    · rw [if_pos rfl, List.filter_cons]
      cases hqa : q a
      · simp only [Bool.false_eq_true, if_false, Bool.true_and, Bool.false_or]
        exact ih
      · simp

/-- Claim C9 (amended): the comment analyzer awards 15 points exactly
when the text contains a block-doc comment and 10 points exactly when
some inline comment line's content is longer than 10 characters — not
"at least 10" — and starts with a capital letter; the awards are
additive and independent, so the score is always 0, 10, 15 or 25. -/
theorem C9_comment_scoring (text : String) :
    (CommentAnalyzer.analyzeCommentQuality text).score = specCommentScore text ∧
    ((CommentAnalyzer.analyzeCommentQuality text).score = 0 ∨
     (CommentAnalyzer.analyzeCommentQuality text).score = 10 ∨
     (CommentAnalyzer.analyzeCommentQuality text).score = 15 ∨
     (CommentAnalyzer.analyzeCommentQuality text).score = 25) := by
  refine ⟨?_, comment_score_mem text⟩
  unfold CommentAnalyzer.analyzeCommentQuality specCommentScore
  dsimp only
  simp only [gt_iff_lt]
  congr 1
  by_cases h : (jsSplit '\n' text).any
      (fun l => CommentAnalyzer.isCommentLine l && CommentAnalyzer.isQualityComment l) = true
  · rw [if_pos ((filter_filter_length_pos _ _ _).2 h), if_pos h]
  · rw [if_neg (fun hc => h ((filter_filter_length_pos _ _ _).1 hc)), if_neg h]

/-- Counterexample for C9 as stated: the line `// Abcdefghij` is an
inline comment whose content is exactly 10 characters long and starts
with a capital letter — the claim awards it 10 points, the analyzer
scores 0. -/
theorem C9_ten_char_comment_scores_zero :
    CommentAnalyzer.isCommentLine "// Abcdefghij" = true ∧
    claimQualityComment "// Abcdefghij" = true ∧
    (CommentAnalyzer.analyzeCommentQuality "// Abcdefghij").score = 0 :=
  ⟨by decide, by decide, by decide⟩

/-! ## Claim C10 -/

/-- Claim C10: `languagePatterns` has entries only for `javascript`,
`typescript` and `python`; for every other language tag the syntax
analyzer scores 0, and the extension map does produce such tags —
java, c, cpp, csharp, go, rust, php, ruby, swift, kotlin, scala and
the `plaintext` fallback. -/
theorem C10_syntax_only_three_languages (text lang : String)
    (h1 : lang ≠ "javascript") (h2 : lang ≠ "typescript") (h3 : lang ≠ "python") :
    SyntaxAnalyzer.analyzeSyntacticCompleteness text lang = 0 ∧
    SyntaxAnalyzer.getLanguageFromExtension "A.java" = "java" ∧
    SyntaxAnalyzer.getLanguageFromExtension "a.c" = "c" ∧
    SyntaxAnalyzer.getLanguageFromExtension "a.cpp" = "cpp" ∧
    SyntaxAnalyzer.getLanguageFromExtension "a.cs" = "csharp" ∧
    SyntaxAnalyzer.getLanguageFromExtension "a.go" = "go" ∧
    SyntaxAnalyzer.getLanguageFromExtension "a.rs" = "rust" ∧
    SyntaxAnalyzer.getLanguageFromExtension "a.php" = "php" ∧
    SyntaxAnalyzer.getLanguageFromExtension "a.rb" = "ruby" ∧
    SyntaxAnalyzer.getLanguageFromExtension "a.swift" = "swift" ∧
    SyntaxAnalyzer.getLanguageFromExtension "a.kt" = "kotlin" ∧
    SyntaxAnalyzer.getLanguageFromExtension "a.scala" = "scala" ∧
    SyntaxAnalyzer.getLanguageFromExtension "a.txt" = "plaintext" := by
  refine ⟨?_, by decide, by decide, by decide, by decide, by decide, by decide,
    by decide, by decide, by decide, by decide, by decide, by decide⟩
  unfold SyntaxAnalyzer.analyzeSyntacticCompleteness SyntaxAnalyzer.languagePatterns
  rw [if_neg h1, if_neg h2, if_neg h3]
  rfl

/-- Witness for C10: the analyzer scores 0 on a complete Java class
for the `java` tag (and the tag is what `.java` maps to). -/
theorem C10_syntax_only_three_languages_witness :
    SyntaxAnalyzer.analyzeSyntacticCompleteness
      "class A \x7b int x; \x7d" "java" = 0 :=
  (C10_syntax_only_three_languages "class A \x7b int x; \x7d" "java"
    (by decide) (by decide) (by decide)).1

end Ailog
